import Mathlib

set_option maxRecDepth 8000

/-!
Verification development for the DSMR-InfluxDB smart-meter reader
(src/smartmeter-influxdb.py).

The embedding models the two protocol components:

* the frame reader `SmartMeter.read_one_packet` (here `readLoop` /
  `readOnePacket` over an explicit stream of raw lines), and
* the telegram parser/validator `P1Packet` (`validate`, the field
  extraction of `P1Packet.__init__`, here `extractKeys` and
  `P1Packet.init`).

Byte strings are modelled as `List Char` of ASCII characters (a char's
`toNat` is its byte value).  Python floats are modelled as exact rationals
`ℚ`; every captured numeric text has the shape `digits.digits`, so its
value is exact.  Python exceptions are modelled by the error type
`P1Error`:

* `structural`      — the `UnboundLocalError` raised in `validate` when the
                      `\r\n(?=!)` trailer boundary is never found (the
                      `for` loop body never runs, `checksum` is unbound);
* `checksumMismatch` — `P1PacketError('P1Packet with invalid checksum found')`;
* `badHex`          — the `ValueError` from `int('0x' + ..., 16)` on a
                      non-hexadecimal trailer remainder;
* `typeErr`         — the `TypeError` from `None + x` / `x - None` in the
                      derived-field lines `keys['+T'] = keys['+T1'] + keys['+T2']`,
                      `keys['-T'] = ...`, `keys['P'] = ...` when an operand
                      field is absent (its `get_float` returned `None`).

The regular expressions of the source are concrete, so each is embedded as
the deterministic matcher it denotes (greedy quantifiers over disjoint
character classes need no backtracking; the optional groups of the gas
pattern are tried in the regex engine's order, "present" first).
-/

/-- Errors of the parser/validator, one constructor per distinct Python
exception site (see the module docstring). -/
inductive P1Error where
  | structural
  | checksumMismatch
  | badHex
  | typeErr
  deriving DecidableEq, Repr

instance {ε α : Type} [DecidableEq ε] [DecidableEq α] : DecidableEq (Except ε α) := fun a b =>
  match a, b with
  | Except.error x, Except.error y =>
    if h : x = y then Decidable.isTrue (by rw [h])
    else Decidable.isFalse (fun c => h (Except.error.inj c))
  | Except.error _, Except.ok _ => Decidable.isFalse (fun c => Except.noConfusion c)
  | Except.ok _, Except.error _ => Decidable.isFalse (fun c => Except.noConfusion c)
  | Except.ok x, Except.ok y =>
    if h : x = y then Decidable.isTrue (by rw [h])
    else Decidable.isFalse (fun c => h (Except.ok.inj c))

/-- Whitespace characters stripped by Python's `bytes.strip` / `bytes.lstrip`:
space, tab, LF, CR, vertical tab, form feed. -/
def isWS (c : Char) : Bool :=
  c == ' ' || c == '\t' || c == '\n' || c == '\r' || c == Char.ofNat 11 || c == Char.ofNat 12

/-- Python `bytes.lstrip()` (used on the header line in `read_one_packet`). -/
def lstripWS (s : List Char) : List Char := s.dropWhile isWS

/-- Python `bytes.strip()` (used on the trailer remainder in `validate`). -/
def stripWS (s : List Char) : List Char :=
  ((s.dropWhile isWS).reverse.dropWhile isWS).reverse

/-- One step of the reflected CRC-16/ARC bit loop (polynomial 0xA001). -/
def crcRound (c : Nat) : Nat := if c % 2 = 1 then (c / 2) ^^^ 0xA001 else c / 2

/-- Fold one byte into the running CRC (xor into the low bits, 8 rounds). -/
def crcByte (c b : Nat) : Nat := crcRound^[8] (c ^^^ (b % 256))

/-- `crcmod.predefined.mkPredefinedCrcFun('crc16')`: CRC-16/ARC with
initial value 0, reflected polynomial 0xA001, no final xor. -/
def crc16 (s : List Char) : Nat := s.foldl (fun c ch => crcByte c ch.toNat) 0

/-- Hexadecimal digit predicate accepted by Python `int(_, 16)`. -/
def isHexCh (c : Char) : Bool :=
  (decide ('0' ≤ c) && decide (c ≤ '9')) ||
  (decide ('a' ≤ c) && decide (c ≤ 'f')) ||
  (decide ('A' ≤ c) && decide (c ≤ 'F'))

/-- Value of one hexadecimal digit. -/
def hexDigitVal (c : Char) : Nat :=
  if '0' ≤ c ∧ c ≤ '9' then c.toNat - 48
  else if 'a' ≤ c ∧ c ≤ 'f' then c.toNat - 87
  else if 'A' ≤ c ∧ c ≤ 'F' then c.toNat - 55
  else 0

/-- Base-16 value of a digit string. -/
def hexFold (s : List Char) : Nat := s.foldl (fun n c => 16 * n + hexDigitVal c) 0

/-- Python `int('0x' + s, 16)` on an already-stripped string: succeeds on a
nonempty all-hex string, raises `ValueError` (here `none`) otherwise. -/
def hexVal (s : List Char) : Option Nat :=
  if !s.isEmpty && s.all isHexCh then some (hexFold s) else none

/-- Decimal value of a digit string. -/
def digitsToNat (ds : List Char) : Nat := ds.foldl (fun n c => 10 * n + (c.toNat - 48)) 0

/-- Python `float` of a captured text `a ++ "." ++ b` with `a`, `b` digit
strings, as an exact rational. -/
def numToRat (a b : List Char) : ℚ :=
  (digitsToNat a : ℚ) + (digitsToNat b : ℚ) / (10 : ℚ) ^ b.length

/-- Value of a raw capture `(a, b)` standing for `a.b`. -/
def numFrom (p : List Char × List Char) : ℚ := numToRat p.1 p.2

/-- Consume the literal `p` from the front of `s` (regex literal matching). -/
def dropLit : List Char → List Char → Option (List Char)
  | [], s => some s
  | _ :: _, [] => none
  | c :: p, e :: s => if c = e then dropLit p s else none

/-- Suffixes of `d` starting just after each `'\n'`: together with `d`
itself these are exactly the positions where `^` matches under
`re.MULTILINE`. -/
def tailsAfterNL : List Char → List (List Char)
  | [] => []
  | c :: rest => if c = '\n' then rest :: tailsAfterNL rest else tailsAfterNL rest

/-- All `re.MULTILINE` line-start suffixes of `d`, leftmost first. -/
def lineStarts (d : List Char) : List (List Char) := d :: tailsAfterNL d

/-- Matcher for the standard field pattern
`^<code>\(([0-9]+\.[0-9]+)\*<unit>\)\r\n` at one line start; returns the
two captured digit groups.  Greedy `[0-9]+` needs no backtracking: a
shorter digit run would still end at a digit, which can match neither `\.`
nor `\*`. -/
def matchFieldRaw (code unit : List Char) (s : List Char) : Option (List Char × List Char) :=
  match dropLit code s with
  | none => none
  | some s1 =>
    match s1 with
    | '(' :: s2 =>
      let a := s2.takeWhile Char.isDigit
      let r1 := s2.dropWhile Char.isDigit
      if a.isEmpty then none
      else
        match r1 with
        | '.' :: r2 =>
          let b := r2.takeWhile Char.isDigit
          let r3 := r2.dropWhile Char.isDigit
          if b.isEmpty then none
          else
            match dropLit ('*' :: (unit ++ [')', '\r', '\n'])) r3 with
            | some _ => some (a, b)
            | none => none
        | _ => none
    | _ => none

/-- Standard field matcher with the captured text converted by `float`. -/
def matchField (code unit : List Char) (s : List Char) : Option ℚ :=
  (matchFieldRaw code unit s).map numFrom

/-- Core of the gas pattern: `\(([0-9]{6}\.[0-9]{2})(?:\*m3)?\)\r\n`.
The exact quantifiers `{6}` and `{2}` admit no backtracking; the optional
`\*m3` is tried present-first, and the two alternatives start with the
distinct characters `'*'` and `')'`. -/
def matchGcoreRaw (s : List Char) : Option (List Char × List Char) :=
  match s with
  | '(' :: r =>
    let a := r.take 6
    let r6 := r.drop 6
    if a.length == 6 && a.all Char.isDigit then
      match r6 with
      | '.' :: r7 =>
        let b := r7.take 2
        let r8 := r7.drop 2
        if b.length == 2 && b.all Char.isDigit then
          match dropLit ['*', 'm', '3', ')', '\r', '\n'] r8 with
          | some _ => some (a, b)
          | none =>
            match dropLit [')', '\r', '\n'] r8 with
            | some _ => some (a, b)
            | none => none
        else none
      | _ => none
    else none
  | _ => none

/-- Gas pattern core with `float` conversion of the capture. -/
def matchGcore (s : List Char) : Option ℚ := (matchGcoreRaw s).map numFrom

/-- The optional capture-timestamp group `(?:\(\d+[SW]\))?` of the gas
pattern: consume `(digits[SW])` if present. -/
def dropTimestamp (s : List Char) : Option (List Char) :=
  match s with
  | '(' :: t =>
    let ds := t.takeWhile Char.isDigit
    let r := t.dropWhile Char.isDigit
    if ds.isEmpty then none
    else
      match r with
      | c :: ')' :: r2 => if c == 'S' || c == 'W' then some r2 else none
      | _ => none
  | _ => none

/-- First alternative preferred (regex greedy `?`). -/
def orEl : Option ℚ → Option ℚ → Option ℚ
  | some v, _ => some v
  | none, y => y

/-- The OBIS prefix of the gas pattern, `0-1:24\.2\.1`. -/
def gasCode : List Char := "0-1:24.2.1".toList

/-- Matcher for the full gas pattern
`^(?:0-1:24\.2\.1(?:\(\d+[SW]\))?)?\(([0-9]{6}\.[0-9]{2})(?:\*m3)?\)\r\n`
at one line start.  The regex tries the optional prefix (with, then
without, its optional timestamp) before the empty alternative, and the
whole prefix group is optional, so a bare `(dddddd.dd)` line matches. -/
def matchG (s : List Char) : Option ℚ :=
  match dropLit gasCode s with
  | some s1 =>
    match dropTimestamp s1 with
    | some s2 => orEl (matchGcore s2) (orEl (matchGcore s1) (matchGcore s))
    | none => orEl (matchGcore s1) (matchGcore s)
  | none => matchGcore s

/-- Leftmost match of `f` over the line starts, as `re.search` with an
anchored multi-line pattern. -/
def firstMatch (f : List Char → Option ℚ) : List (List Char) → Option ℚ
  | [] => none
  | s :: rest =>
    match f s with
    | some v => some v
    | none => firstMatch f rest

/-- `P1Packet.get_float(regex)` for a standard field pattern: `none` means
the Python `None` default ("not present"). -/
def getField (code unit : List Char) (d : List Char) : Option ℚ :=
  firstMatch (matchField code unit) (lineStarts d)

/-- `re.search` of the gas pattern over the datagram. -/
def searchG (d : List Char) : Option ℚ := firstMatch matchG (lineStarts d)

/-- `P1Packet.get_float(gas_regex, 0)`: the gas field defaults to `0` when
its pattern matches nothing. -/
def getG (d : List Char) : ℚ := (searchG d).getD 0

/-- Does `'\r' :: '\n' :: '!'` occur at index `i` of `d`?  These are the
match positions of `re.compile(b'\r\n(?=!)')`. -/
def isBoundary (d : List Char) (i : Nat) : Bool :=
  match d.drop i with
  | '\r' :: '\n' :: '!' :: _ => true
  | _ => false

/-- Index of the last trailer boundary.  `validate`'s `for match in
pattern.finditer(...)` loop leaves `packet`/`checksum` bound by the *last*
match (candidate positions are at least two apart, so non-overlapping
iteration skips none); no match at all leaves them unbound
(`UnboundLocalError`). -/
def lastBoundary (d : List Char) : Option Nat :=
  ((List.range d.length).filter (isBoundary d)).getLast?

/-- The checksum comparison of `P1Packet.validate` given the split into
`packet = datagram[:end+1]` and `checksum = datagram[end+1:]`. -/
def checkRemainder (packet remainder : List Char) : Except P1Error Unit :=
  if stripWS remainder = [] then Except.ok ()
  else
    match hexVal (stripWS remainder) with
    | none => Except.error P1Error.badHex
    | some given =>
      if given = crc16 packet then Except.ok ()
      else Except.error P1Error.checksumMismatch

/-- `P1Packet.validate` on the datagram bytes. -/
def validate (d : List Char) : Except P1Error Unit :=
  match lastBoundary d with
  | none => Except.error P1Error.structural
  | some i => checkRemainder (d.take (i + 3)) (d.drop (i + 3))

/-- The `keys` dictionary built by `P1Packet.__init__`: the fifteen pattern
fields (Python `None` = absent = `Option.none`), the three derived fields
(present only when their operands are, see `extractKeys`), and the gas
field with its default of `0`. -/
structure TelegramRecord where
  tP1 : Option ℚ
  tM1 : Option ℚ
  tP2 : Option ℚ
  tM2 : Option ℚ
  pPlus : Option ℚ
  pMinus : Option ℚ
  v1 : Option ℚ
  v2 : Option ℚ
  v3 : Option ℚ
  pP1 : Option ℚ
  pP2 : Option ℚ
  pP3 : Option ℚ
  pM1 : Option ℚ
  pM2 : Option ℚ
  pM3 : Option ℚ
  tPlusTot : ℚ
  tMinusTot : ℚ
  pNet : ℚ
  g : ℚ
  deriving DecidableEq, Repr

/-- Python `keys['+T1'] + keys['+T2']`: a `TypeError` unless both operands
are floats. -/
def addOpt : Option ℚ → Option ℚ → Except P1Error ℚ
  | some x, some y => Except.ok (x + y)
  | _, _ => Except.error P1Error.typeErr

/-- Python `keys['+P'] - keys['-P']`: a `TypeError` unless both operands
are floats. -/
def subOpt : Option ℚ → Option ℚ → Except P1Error ℚ
  | some x, some y => Except.ok (x - y)
  | _, _ => Except.error P1Error.typeErr

/-- OBIS code of `+T1` (`1-0:1.8.1`). -/
def cT1p : List Char := "1-0:1.8.1".toList

/-- OBIS code of `-T1` (`1-0:2.8.1`). -/
def cT1m : List Char := "1-0:2.8.1".toList

/-- OBIS code of `+T2` (`1-0:1.8.2`). -/
def cT2p : List Char := "1-0:1.8.2".toList

/-- OBIS code of `-T2` (`1-0:2.8.2`). -/
def cT2m : List Char := "1-0:2.8.2".toList

/-- OBIS code of `+P` (`1-0:1.7.0`). -/
def cPp : List Char := "1-0:1.7.0".toList

/-- OBIS code of `-P` (`1-0:2.7.0`). -/
def cPm : List Char := "1-0:2.7.0".toList

/-- OBIS code of `V_1` (`1-0:32.7.0`). -/
def cV1 : List Char := "1-0:32.7.0".toList

/-- OBIS code of `V_2` (`1-0:52.7.0`). -/
def cV2 : List Char := "1-0:52.7.0".toList

/-- OBIS code of `V_3` (`1-0:72.7.0`). -/
def cV3 : List Char := "1-0:72.7.0".toList

/-- OBIS code of `+P_1` (`1-0:21.7.0`). -/
def cPp1 : List Char := "1-0:21.7.0".toList

/-- OBIS code of `+P_2` (`1-0:41.7.0`). -/
def cPp2 : List Char := "1-0:41.7.0".toList

/-- OBIS code of `+P_3` (`1-0:61.7.0`). -/
def cPp3 : List Char := "1-0:61.7.0".toList

/-- OBIS code of `-P_1` (`1-0:22.7.0`). -/
def cPm1 : List Char := "1-0:22.7.0".toList

/-- OBIS code of `-P_2` (`1-0:42.7.0`). -/
def cPm2 : List Char := "1-0:42.7.0".toList

/-- OBIS code of `-P_3` (`1-0:62.7.0`). -/
def cPm3 : List Char := "1-0:62.7.0".toList

/-- Unit literal `kWh`. -/
def uKWh : List Char := "kWh".toList

/-- Unit literal `kW`. -/
def uKW : List Char := "kW".toList

/-- Unit literal `V`. -/
def uV : List Char := "V".toList

/-- The field-extraction part of `P1Packet.__init__` (everything after the
`validate()` call).  The three derived assignments run in source order
(`+T`, `-T`, `P`); each raises `TypeError` if an operand is `None`.  All
extraction calls are pure, so hoisting them into the record literal keeps
the source's observable behaviour (each failing line raises the same
`typeErr`). -/
def extractKeys (d : List Char) : Except P1Error TelegramRecord :=
  match addOpt (getField cT1p uKWh d) (getField cT2p uKWh d) with
  | Except.error e => Except.error e
  | Except.ok tPlus =>
    match addOpt (getField cT1m uKWh d) (getField cT2m uKWh d) with
    | Except.error e => Except.error e
    | Except.ok tMinus =>
      match subOpt (getField cPp uKW d) (getField cPm uKW d) with
      | Except.error e => Except.error e
      | Except.ok pNet =>
        Except.ok
          { tP1 := getField cT1p uKWh d
            tM1 := getField cT1m uKWh d
            tP2 := getField cT2p uKWh d
            tM2 := getField cT2m uKWh d
            pPlus := getField cPp uKW d
            pMinus := getField cPm uKW d
            v1 := getField cV1 uV d
            v2 := getField cV2 uV d
            v3 := getField cV3 uV d
            pP1 := getField cPp1 uKW d
            pP2 := getField cPp2 uKW d
            pP3 := getField cPp3 uKW d
            pM1 := getField cPm1 uKW d
            pM2 := getField cPm2 uKW d
            pM3 := getField cPm3 uKW d
            tPlusTot := tPlus
            tMinusTot := tMinus
            pNet := pNet
            g := getG d }

/-- `P1Packet.__init__(datagram)`: validate first (any failure aborts before
any extraction), then build the keys. -/
def P1Packet.init (d : List Char) : Except P1Error TelegramRecord :=
  match validate d with
  | Except.error e => Except.error e
  | Except.ok _ => extractKeys d

/-- State of the `read_one_packet` loop. -/
structure ReaderState where
  datagram : List Char
  linesRead : Nat
  startFound : Bool
  endFound : Bool
  deriving DecidableEq, Repr

/-- `re.match(b'.*(?=/)', line)`: succeeds iff `'/'` occurs in the line
before any `'\n'` (`.` matches every byte but `\n`, the lookahead consumes
nothing). -/
def isHeaderLine (line : List Char) : Bool :=
  (line.takeWhile (fun c => c != '\n')).contains '/'

/-- `re.match(b'(?=!)', line)`: succeeds iff the line begins with `'!'`. -/
def isTrailerLine (line : List Char) : Bool :=
  match line with
  | '!' :: _ => true
  | _ => false

/-- The largest-known-telegram constant of `read_one_packet`.  It is
assigned (`max_lines = 35`) but never consulted anywhere in the loop; the
source's own TODO comment notes the missing infinite-loop protection. -/
def maxLines : Nat := 35

/-- One iteration of the `read_one_packet` while-loop body on one raw line:
count the line, then classify it (header test first, as in the `if`/`elif`
chain). -/
def readerStep (st : ReaderState) (line : List Char) : ReaderState :=
  let st1 : ReaderState := { st with linesRead := st.linesRead + 1 }
  if isHeaderLine line then
    { st1 with startFound := true, endFound := false, datagram := lstripWS line }
  else if isTrailerLine line then
    { st1 with endFound := true, datagram := st1.datagram ++ line }
  else
    { st1 with datagram := st1.datagram ++ line }

/-- The `while not startFound or not endFound` loop over a stream of raw
lines.  `none` means the stream was exhausted with the flags still unset:
the Python loop would still be blocked waiting on `serial.readline()` —
there is no line-count exit of any kind. -/
def readLoop : ReaderState → List (List Char) → Option ReaderState
  | st, [] => if st.startFound && st.endFound then some st else none
  | st, l :: ls =>
    if st.startFound && st.endFound then some st
    else readLoop (readerStep st l) ls

/-- `SmartMeter.read_one_packet` up to the final `P1Packet(datagram)` call:
the assembled frame bytes, if the loop terminates on the given stream. -/
def readOnePacket (lines : List (List Char)) : Option (List Char) :=
  (readLoop { datagram := [], linesRead := 0, startFound := false, endFound := false } lines).map
    ReaderState.datagram

/-- A synthetic telegram carrying all six derived-field operands, no
per-phase fields, no gas line, and a bare (uncheck-summed) trailer. -/
def fullFrame : List Char :=
  ("/H\r\n" ++
   "1-0:1.8.1(000123.456*kWh)\r\n" ++
   "1-0:2.8.1(000010.000*kWh)\r\n" ++
   "1-0:1.8.2(000200.000*kWh)\r\n" ++
   "1-0:2.8.2(000020.000*kWh)\r\n" ++
   "1-0:1.7.0(00.500*kW)\r\n" ++
   "1-0:2.7.0(00.100*kW)\r\n" ++
   "!\r\n").toList

/-- The record `P1Packet.init` produces for `fullFrame`. -/
def fullRec : TelegramRecord :=
  { tP1 := some ((123 : ℚ) + 456 / 1000)
    tM1 := some ((10 : ℚ) + 0 / 1000)
    tP2 := some ((200 : ℚ) + 0 / 1000)
    tM2 := some ((20 : ℚ) + 0 / 1000)
    pPlus := some ((0 : ℚ) + 500 / 1000)
    pMinus := some ((0 : ℚ) + 100 / 1000)
    v1 := none
    v2 := none
    v3 := none
    pP1 := none
    pP2 := none
    pP3 := none
    pM1 := none
    pM2 := none
    pM3 := none
    tPlusTot := ((123 : ℚ) + 456 / 1000) + ((200 : ℚ) + 0 / 1000)
    tMinusTot := ((10 : ℚ) + 0 / 1000) + ((20 : ℚ) + 0 / 1000)
    pNet := ((0 : ℚ) + 500 / 1000) - ((0 : ℚ) + 100 / 1000)
    g := 0 }

/-- `fullFrame` with the `+T2` line removed: the `1-0:1.8.2` pattern then
matches nothing. -/
def noT2Frame : List Char :=
  ("/H\r\n" ++
   "1-0:1.8.1(000123.456*kWh)\r\n" ++
   "1-0:2.8.1(000010.000*kWh)\r\n" ++
   "1-0:2.8.2(000020.000*kWh)\r\n" ++
   "1-0:1.7.0(00.500*kW)\r\n" ++
   "1-0:2.7.0(00.100*kW)\r\n" ++
   "!\r\n").toList

/-- A minimal frame whose trailer carries the checksum text `0000`. -/
def frameBadCs : List Char := "/H\r\n!0000\r\n".toList

/-- `fullFrame` with a bare gas value line `(123456.78)` added: six digits,
a dot, two digits in parentheses — no `0-1:24.2.1` code, no `*m3` unit. -/
def gFrame : List Char :=
  ("/H\r\n" ++
   "1-0:1.8.1(000123.456*kWh)\r\n" ++
   "1-0:2.8.1(000010.000*kWh)\r\n" ++
   "1-0:1.8.2(000200.000*kWh)\r\n" ++
   "1-0:2.8.2(000020.000*kWh)\r\n" ++
   "1-0:1.7.0(00.500*kW)\r\n" ++
   "1-0:2.7.0(00.100*kW)\r\n" ++
   "(123456.78)\r\n" ++
   "!\r\n").toList

/-- A parsed capture value is the rational of its digit groups, hence nonnegative. -/
theorem numToRat_nonneg (a b : List Char) : 0 ≤ numToRat a b := by
  unfold numToRat
  have h1 : (0 : ℚ) ≤ (digitsToNat a : ℚ) := Nat.cast_nonneg _
  have h2 : (0 : ℚ) ≤ (digitsToNat b : ℚ) / (10 : ℚ) ^ b.length :=
    div_nonneg (Nat.cast_nonneg _) (pow_nonneg (by norm_num) _)
  exact add_nonneg h1 h2

/-- Any value produced through `numFrom` is nonnegative. -/
theorem map_numFrom_nonneg (x : Option (List Char × List Char)) (v : ℚ)
    (h : x.map numFrom = some v) : 0 ≤ v := by
  cases x with
  | none => exact Option.noConfusion h
  | some p =>
    injection h with h
    rw [← h]
    exact numToRat_nonneg p.1 p.2

/-- A standard field matcher only returns parsed captures. -/
theorem matchField_nonneg (code unit s : List Char) (v : ℚ)
    (h : matchField code unit s = some v) : 0 ≤ v := by
  unfold matchField at h
  exact map_numFrom_nonneg _ v h

/-- The gas-pattern core only returns parsed captures. -/
theorem matchGcore_nonneg (s : List Char) (v : ℚ) (h : matchGcore s = some v) : 0 ≤ v := by
  unfold matchGcore at h
  exact map_numFrom_nonneg _ v h

/-- `orEl` only forwards one of its alternatives. -/
theorem orEl_some (x y : Option ℚ) (v : ℚ) (h : orEl x y = some v) :
    x = some v ∨ y = some v := by
  cases x with
  | some w => exact Or.inl h
  | none => exact Or.inr h

/-- The full gas matcher only returns parsed captures. -/
theorem matchG_nonneg (s : List Char) (v : ℚ) (h : matchG s = some v) : 0 ≤ v := by
  unfold matchG at h
  split at h
  · split at h
    · rcases orEl_some _ _ _ h with h1 | h1
      · exact matchGcore_nonneg _ _ h1
      · rcases orEl_some _ _ _ h1 with h2 | h2
        · exact matchGcore_nonneg _ _ h2
        · exact matchGcore_nonneg _ _ h2
    · rcases orEl_some _ _ _ h with h1 | h1
      · exact matchGcore_nonneg _ _ h1
      · exact matchGcore_nonneg _ _ h1
  · exact matchGcore_nonneg _ _ h

/-- A successful leftmost search exhibits a matching line start. -/
theorem firstMatch_some (f : List Char → Option ℚ) (L : List (List Char)) (v : ℚ)
    (h : firstMatch f L = some v) : ∃ s, f s = some v := by
  induction L with
  | nil => exact Option.noConfusion h
  | cons s L ih =>
    unfold firstMatch at h
    split at h
    next w hw =>
      injection h with h
      exact ⟨s, by rw [hw, h]⟩
    next => exact ih h

/-- Any present standard field is nonnegative. -/
theorem getField_nonneg (code unit d : List Char) (v : ℚ)
    (h : getField code unit d = some v) : 0 ≤ v := by
  obtain ⟨s, hs⟩ := firstMatch_some _ _ _ h
  exact matchField_nonneg code unit s v hs

/-- A found gas value is nonnegative. -/
theorem searchG_nonneg (d : List Char) (v : ℚ) (h : searchG d = some v) : 0 ≤ v := by
  obtain ⟨s, hs⟩ := firstMatch_some _ _ _ h
  exact matchG_nonneg s v hs

/-- The gas field is nonnegative (found value or the default 0). -/
theorem getG_nonneg (d : List Char) : 0 ≤ getG d := by
  unfold getG
  cases hs : searchG d with
  | none => simp
  | some v =>
    simp only [Option.getD_some]
    exact searchG_nonneg d v hs

/-- The derived-field addition succeeds exactly on two present operands. -/
theorem addOpt_ok (x y : Option ℚ) (v : ℚ) (h : addOpt x y = Except.ok v) :
    ∃ p q, x = some p ∧ y = some q ∧ v = p + q := by
  cases x with
  | none => cases y <;> exact Except.noConfusion h
  | some p =>
    cases y with
    | none => exact Except.noConfusion h
    | some q =>
      injection h with h
      exact ⟨p, q, rfl, rfl, h.symm⟩

/-- The derived-field subtraction succeeds exactly on two present operands. -/
theorem subOpt_ok (x y : Option ℚ) (v : ℚ) (h : subOpt x y = Except.ok v) :
    ∃ p q, x = some p ∧ y = some q ∧ v = p - q := by
  cases x with
  | none => cases y <;> exact Except.noConfusion h
  | some p =>
    cases y with
    | none => exact Except.noConfusion h
    | some q =>
      injection h with h
      exact ⟨p, q, rfl, rfl, h.symm⟩

/-- A produced packet implies validation succeeded and the keys are the
extraction result. -/
theorem init_ok (d : List Char) (r : TelegramRecord)
    (h : P1Packet.init d = Except.ok r) :
    validate d = Except.ok () ∧ extractKeys d = Except.ok r := by
  unfold P1Packet.init at h
  split at h
  next e he => exact Except.noConfusion h
  next u hu =>
    cases u
    exact ⟨hu, h⟩

/-- Shape of a successful extraction: the six derived-field operands are
present and the record is the literal built from the searches. -/
theorem extract_ok (d : List Char) (r : TelegramRecord)
    (h : extractKeys d = Except.ok r) :
    ∃ a b c e f g2, getField cT1p uKWh d = some a ∧ getField cT2p uKWh d = some b ∧
      getField cT1m uKWh d = some c ∧ getField cT2m uKWh d = some e ∧
      getField cPp uKW d = some f ∧ getField cPm uKW d = some g2 ∧
      r = { tP1 := some a
            tM1 := some c
            tP2 := some b
            tM2 := some e
            pPlus := some f
            pMinus := some g2
            v1 := getField cV1 uV d
            v2 := getField cV2 uV d
            v3 := getField cV3 uV d
            pP1 := getField cPp1 uKW d
            pP2 := getField cPp2 uKW d
            pP3 := getField cPp3 uKW d
            pM1 := getField cPm1 uKW d
            pM2 := getField cPm2 uKW d
            pM3 := getField cPm3 uKW d
            tPlusTot := a + b
            tMinusTot := c + e
            pNet := f - g2
            g := getG d } := by
  unfold extractKeys at h
  split at h
  next e1 he1 => exact Except.noConfusion h
  next tP hTP =>
    split at h
    next e1 he1 => exact Except.noConfusion h
    next tM hTM =>
      split at h
      next e1 he1 => exact Except.noConfusion h
      next pN hPN =>
        obtain ⟨a, b, ha, hb, hab⟩ := addOpt_ok _ _ _ hTP
        obtain ⟨c, e, hc, he, hce⟩ := addOpt_ok _ _ _ hTM
        obtain ⟨f, g2, hf, hg, hfg⟩ := subOpt_ok _ _ _ hPN
        injection h with h
        refine ⟨a, b, c, e, f, g2, ha, hb, hc, he, hf, hg, ?_⟩
        rw [← h, ha, hb, hc, he, hf, hg, hab, hce, hfg]

/-- The index reported by `lastBoundary` is a boundary. -/
theorem lastBoundary_boundary (d : List Char) (i : Nat)
    (h : lastBoundary d = some i) : isBoundary d i = true := by
  unfold lastBoundary at h
  have hm : i ∈ (List.range d.length).filter (isBoundary d) :=
    List.mem_of_mem_getLast? (by rw [h]; exact rfl)
  exact (List.mem_filter.mp hm).2

/-- A boundary index has `'\r' :: '\n' :: '!'` as the start of its suffix. -/
theorem boundary_shape (d : List Char) (i : Nat) (h : isBoundary d i = true) :
    ∃ t, d.drop i = '\r' :: '\n' :: '!' :: t := by
  unfold isBoundary at h
  split at h
  next t heq => exact ⟨t, heq⟩
  next => exact absurd h (by simp)

/-- A whitespace byte is never a hexadecimal digit. -/
theorem ws_not_hex (c : Char) (h : isWS c = true) : isHexCh c = false := by
  simp only [isWS, Bool.or_eq_true, beq_iff_eq] at h
  rcases h with ((((h1 | h1) | h1) | h1) | h1) | h1 <;> subst h1 <;> decide

/-- A hexadecimal digit is never whitespace. -/
theorem hex_not_ws (c : Char) (h : isHexCh c = true) : isWS c = false := by
  cases hw : isWS c
  · rfl
  · rw [ws_not_hex c hw] at h
    exact absurd h (by simp)

/-- A list of length four is a four-element literal. -/
theorem length_four_shape {α : Type} (l : List α) (h : l.length = 4) :
    ∃ a b c e, l = [a, b, c, e] := by
  rcases l with _ | ⟨a, l⟩
  · simp at h
  rcases l with _ | ⟨b, l⟩
  · simp at h
  rcases l with _ | ⟨c, l⟩
  · simp at h
  rcases l with _ | ⟨e, l⟩
  · simp at h
  rcases l with _ | ⟨x, l⟩
  · exact ⟨a, b, c, e, rfl⟩
  · simp at h

/-- Stripping whitespace from four hex digits followed by CRLF leaves
exactly the digits. -/
theorem stripWS_hexTail (h4 : List Char) (hlen : h4.length = 4)
    (hhex : h4.all isHexCh = true) : stripWS (h4 ++ ['\r', '\n']) = h4 := by
  obtain ⟨a, b, c, e, rfl⟩ := length_four_shape h4 hlen
  simp only [List.all_cons, List.all_nil, Bool.and_eq_true, Bool.and_true] at hhex
  obtain ⟨ha, hb, hc, he⟩ := hhex
  have hwa : isWS a = false := hex_not_ws a ha
  have hwe : isWS e = false := hex_not_ws e he
  simp [stripWS, List.dropWhile, hwa, hwe, (by decide : isWS '\r' = true),
    (by decide : isWS '\n' = true)]

/-- Claim C6: for every Frame in which no trailer boundary (a line boundary
immediately preceding the `'!'` marker) can be located, validation fails
with the structural error (the source's unbound-`checksum` crash site) and
the Frame is rejected in full: no Telegram Record is produced. -/
theorem C6_thm (d : List Char) (h : lastBoundary d = none) :
    validate d = Except.error P1Error.structural ∧
    ∀ r, P1Packet.init d ≠ Except.ok r := by
  have hv : validate d = Except.error P1Error.structural := by
    unfold validate
    simp only [h]
  refine ⟨hv, fun r hr => ?_⟩
  unfold P1Packet.init at hr
  rw [hv] at hr
  simp at hr

/-- Witness for C6 at the boundary-free frame `abc`. -/
theorem C6_witness : validate (("abc").toList) = Except.error P1Error.structural :=
  (C6_thm (("abc").toList) (by rfl)).1

/-- Claim C3: for every Frame with a trailer boundary, a non-empty stripped
trailer remainder that parses as a base-16 integer differing from the
CRC-16 of the checksummed region, parsing fails with the checksum-mismatch
error and the Frame is rejected in full: no Telegram Record is produced. -/
theorem C3_thm (d : List Char) (i g0 : Nat)
    (hb : lastBoundary d = some i)
    (hs : stripWS (d.drop (i + 3)) ≠ [])
    (hx : hexVal (stripWS (d.drop (i + 3))) = some g0)
    (hne : g0 ≠ crc16 (d.take (i + 3))) :
    validate d = Except.error P1Error.checksumMismatch ∧
    ∀ r, P1Packet.init d ≠ Except.ok r := by
  have hv : validate d = Except.error P1Error.checksumMismatch := by
    unfold validate
    simp only [hb]
    unfold checkRemainder
    rw [if_neg hs]
    simp only [hx]
    rw [if_neg hne]
  refine ⟨hv, fun r hr => ?_⟩
  unfold P1Packet.init at hr
  rw [hv] at hr
  simp at hr

/-- Witness for C3: the frame `/H\r\n!0000\r\n` declares checksum 0 while
the CRC-16 of `/H\r\n!` is 7573. -/
theorem C3_witness : validate frameBadCs = Except.error P1Error.checksumMismatch :=
  (C3_thm frameBadCs 2 0 (by rfl) (by decide) (by rfl) (by decide)).1

/-- Claim C8: for every Frame with a trailer boundary whose trailer
remainder strips to empty (a bare `!` trailer), checksum validation is
skipped: no error is raised and parsing is exactly the plain field
extraction, as for a validated Frame. -/
theorem C8_thm (d : List Char) (i : Nat)
    (hb : lastBoundary d = some i)
    (he : stripWS (d.drop (i + 3)) = []) :
    validate d = Except.ok () ∧ P1Packet.init d = extractKeys d := by
  have hv : validate d = Except.ok () := by
    unfold validate
    simp only [hb]
    unfold checkRemainder
    rw [if_pos he]
  refine ⟨hv, ?_⟩
  unfold P1Packet.init
  rw [hv]

/-- Witness for C8 at the bare-trailer frame `/H\r\n!\r\n`. -/
theorem C8_witness :
    validate (("/H\r\n!\r\n").toList) = Except.ok () ∧
    P1Packet.init (("/H\r\n!\r\n").toList) = extractKeys (("/H\r\n!\r\n").toList) :=
  C8_thm (("/H\r\n!\r\n").toList) 2 (by rfl) (by rfl)

/-- Claim C7: for every Frame whose trailer remainder is four hex digits
followed by CRLF, validation compares exactly the base-16 value of those
digits with the CRC-16 of the Frame bytes from the start through the `'!'`
trailer marker inclusive (the checksummed region indeed ends with `'!'`),
excluding the digits and everything after the marker. -/
theorem C7_thm (d : List Char) (i : Nat) (h4 : List Char)
    (hb : lastBoundary d = some i)
    (hdrop : d.drop (i + 3) = h4 ++ ['\r', '\n'])
    (hlen : h4.length = 4)
    (hhex : h4.all isHexCh = true) :
    validate d =
      (if hexFold h4 = crc16 (d.take (i + 3)) then Except.ok ()
       else Except.error P1Error.checksumMismatch) ∧
    (d.take (i + 3)).getLast? = some '!' := by
  constructor
  · have hstrip : stripWS (h4 ++ ['\r', '\n']) = h4 := stripWS_hexTail h4 hlen hhex
    have hnil : h4 ≠ [] := by
      intro hc
      rw [hc] at hlen
      exact absurd hlen (by decide)
    have hemp : h4.isEmpty = false := by
      obtain ⟨a, b, c, e, h4eq⟩ := length_four_shape h4 hlen
      rw [h4eq]
      rfl
    have hcond : (!h4.isEmpty && h4.all isHexCh) = true := by
      rw [hemp, hhex]
      rfl
    have hvx : hexVal h4 = some (hexFold h4) := by
      unfold hexVal
      rw [if_pos hcond]
    unfold validate
    simp only [hb]
    unfold checkRemainder
    rw [hdrop, hstrip, if_neg hnil, hvx]
  · obtain ⟨t, ht⟩ := boundary_shape d i (lastBoundary_boundary d i hb)
    have hi : i ≤ d.length := by
      by_contra hlt
      push_neg at hlt
      rw [List.drop_eq_nil_of_le (le_of_lt hlt)] at ht
      exact List.noConfusion ht
    have hlA : (d.take i).length = i := by
      rw [List.length_take]
      exact min_eq_left hi
    have hd : d = d.take i ++ ('\r' :: '\n' :: '!' :: t) := by
      rw [← ht, List.take_append_drop]
    conv_lhs => rw [hd]
    rw [List.take_append_eq_append_take,
      List.take_of_length_le (by rw [hlA]; omega), hlA]
    have h3 : i + 3 - i = 3 := by omega
    rw [h3]
    have : ('\r' :: '\n' :: '!' :: t).take 3 = ['\r', '\n', '!'] := rfl
    rw [this]
    have : (d.take i) ++ ['\r', '\n', '!'] = (d.take i) ++ ('\r' :: ['\n', '!']) := rfl
    rw [this, List.getLast?_append_cons]
    rfl

/-- Witness for C7 at the frame `/H\r\n!0000\r\n` with digits `0000`. -/
theorem C7_witness :
    validate frameBadCs =
      (if hexFold (("0000").toList) = crc16 (frameBadCs.take 5) then Except.ok ()
       else Except.error P1Error.checksumMismatch) ∧
    (frameBadCs.take 5).getLast? = some '!' :=
  C7_thm frameBadCs 2 (("0000").toList) (by rfl) (by rfl) (by rfl) (by rfl)

/-- Counterexample to claim C1 as stated: `noT2Frame` is a valid Frame
whose `+T2` operand is absent, yet no Telegram Record with
zero-substituted derived fields is produced — `P1Packet.__init__` raises
`TypeError` at `keys['+T'] = keys['+T1'] + keys['+T2']`. -/
theorem C1_counterexample : P1Packet.init noT2Frame = Except.error P1Error.typeErr := by rfl

/-- Claim C1 as amended: whenever a Telegram Record is produced, all six
operand fields `+T1`, `+T2`, `-T1`, `-T2`, `+P`, `-P` are present and the
derived fields satisfy `+T = +T1 + +T2`, `-T = -T1 + -T2`, `P = +P - -P`;
an absent operand aborts parsing instead of being replaced by 0. -/
theorem C1_amended_thm (d : List Char) (r : TelegramRecord)
    (h : P1Packet.init d = Except.ok r) :
    ((getField cT1p uKWh d).isSome = true ∧ (getField cT2p uKWh d).isSome = true ∧
     (getField cT1m uKWh d).isSome = true ∧ (getField cT2m uKWh d).isSome = true ∧
     (getField cPp uKW d).isSome = true ∧ (getField cPm uKW d).isSome = true) ∧
    r.tPlusTot = (getField cT1p uKWh d).getD 0 + (getField cT2p uKWh d).getD 0 ∧
    r.tMinusTot = (getField cT1m uKWh d).getD 0 + (getField cT2m uKWh d).getD 0 ∧
    r.pNet = (getField cPp uKW d).getD 0 - (getField cPm uKW d).getD 0 := by
  obtain ⟨-, hx⟩ := init_ok d r h
  obtain ⟨a, b, c, e, f, g2, ha, hb, hc, he, hf, hg, hr⟩ := extract_ok d r hx
  subst hr
  simp [ha, hb, hc, he, hf, hg]

/-- Witness for the amended C1 at `fullFrame`, where all six operands are
present. -/
theorem C1_witness : (getField cT1p uKWh fullFrame).isSome = true :=
  (C1_amended_thm fullFrame fullRec (by rfl)).1.1

/-- Claim C2 diverges from the code: on a stream of 40 consecutive
non-trailer lines `read_one_packet` raises nothing — the `max_lines = 35`
constant is assigned but never consulted, and the loop simply keeps
waiting for more lines (here: the whole stream is consumed and no frame
and no error results). -/
theorem C2_overflow_unenforced :
    readOnePacket (List.replicate 40 (("x\r\n").toList)) = none ∧ maxLines = 35 :=
  ⟨by rfl, rfl⟩

/-- Counterexample to claim C4 as stated: the header line `ab/H\r\n` has
non-whitespace bytes before the `'/'` marker, and the assembled Frame
keeps them — it does not start at `'/'`. -/
theorem C4_counterexample :
    readOnePacket [("ab/H\r\n").toList, ("!\r\n").toList] = some (("ab/H\r\n!\r\n").toList) ∧
    (("ab/H\r\n!\r\n").toList).head? ≠ some '/' :=
  ⟨by rfl, by decide⟩

/-- Claim C4 as amended: on a header line the reader discards all
accumulation, sets the header flag, clears the trailer flag, and stores
the line stripped of leading *whitespace* only (`bytes.lstrip`), so
non-whitespace bytes before `'/'` are kept; the spec's example stream
`noise\r\n/HEADER\r\n!ABCD\r\n` still produces a Frame starting at
`/HEADER` because that header line has nothing before its marker. -/
theorem C4_amended_thm :
    (∀ (st : ReaderState) (l : List Char), isHeaderLine l = true →
        readerStep st l = { datagram := lstripWS l, linesRead := st.linesRead + 1,
                            startFound := true, endFound := false }) ∧
    readOnePacket [("noise\r\n").toList, ("/HEADER\r\n").toList, ("!ABCD\r\n").toList]
      = some (("/HEADER\r\n!ABCD\r\n").toList) := by
  constructor
  · intro st l hl
    cases st
    simp [readerStep, hl]
  · rfl

/-- Witness for the amended C4 at the initial state and header line `/H\r\n`. -/
theorem C4_witness :
    readerStep { datagram := [], linesRead := 0, startFound := false, endFound := false }
        (("/H\r\n").toList)
      = { datagram := lstripWS (("/H\r\n").toList), linesRead := 1,
          startFound := true, endFound := false } :=
  C4_amended_thm.1 { datagram := [], linesRead := 0, startFound := false, endFound := false }
    (("/H\r\n").toList) (by rfl)

/-- Counterexample to claim C5 as stated: `fullFrame` is checksum-valid and
contains no line matching the gas pattern, yet the produced record reports
`G = 0` — a zero default, not "not present". -/
theorem C5_counterexample :
    searchG fullFrame = none ∧
    (P1Packet.init fullFrame).toOption.map TelegramRecord.g = some 0 :=
  ⟨by rfl, by rfl⟩

/-- Claim C5 as amended: in every produced Telegram Record each per-phase
field (`V_1..3`, `+P_1..3`, `-P_1..3`) is exactly its pattern search
result — `none` ("not present") when no line matches — while `G` is the
search result with a default of `0` when no line matches; the six derived
operands must be present for a record to exist at all (claim C1). -/
theorem C5_amended_thm (d : List Char) (r : TelegramRecord)
    (h : P1Packet.init d = Except.ok r) :
    r.v1 = getField cV1 uV d ∧ r.v2 = getField cV2 uV d ∧ r.v3 = getField cV3 uV d ∧
    r.pP1 = getField cPp1 uKW d ∧ r.pP2 = getField cPp2 uKW d ∧ r.pP3 = getField cPp3 uKW d ∧
    r.pM1 = getField cPm1 uKW d ∧ r.pM2 = getField cPm2 uKW d ∧ r.pM3 = getField cPm3 uKW d ∧
    r.g = (searchG d).getD 0 := by
  obtain ⟨-, hx⟩ := init_ok d r h
  obtain ⟨a, b, c, e, f, g2, ha, hb, hc, he, hf, hg, hr⟩ := extract_ok d r hx
  subst hr
  exact ⟨rfl, rfl, rfl, rfl, rfl, rfl, rfl, rfl, rfl, rfl⟩

/-- Witness for the amended C5 at `fullFrame` (its `V_1` line is absent and
the record reports `none`). -/
theorem C5_witness : fullRec.v1 = getField cV1 uV fullFrame :=
  (C5_amended_thm fullFrame fullRec (by rfl)).1

/-- Claim C9: in every produced Telegram Record all fifteen non-derived
pattern fields, when present, are nonnegative (each extraction pattern
captures an unsigned `digits.digits` decimal), and the gas field is
nonnegative as well; only the derived subtraction `P` can go negative. -/
theorem C9_thm (d : List Char) (r : TelegramRecord)
    (h : P1Packet.init d = Except.ok r) :
    0 ≤ r.g ∧
    (∀ q, r.tP1 = some q → 0 ≤ q) ∧ (∀ q, r.tM1 = some q → 0 ≤ q) ∧
    (∀ q, r.tP2 = some q → 0 ≤ q) ∧ (∀ q, r.tM2 = some q → 0 ≤ q) ∧
    (∀ q, r.pPlus = some q → 0 ≤ q) ∧ (∀ q, r.pMinus = some q → 0 ≤ q) ∧
    (∀ q, r.v1 = some q → 0 ≤ q) ∧ (∀ q, r.v2 = some q → 0 ≤ q) ∧
    (∀ q, r.v3 = some q → 0 ≤ q) ∧
    (∀ q, r.pP1 = some q → 0 ≤ q) ∧ (∀ q, r.pP2 = some q → 0 ≤ q) ∧
    (∀ q, r.pP3 = some q → 0 ≤ q) ∧
    (∀ q, r.pM1 = some q → 0 ≤ q) ∧ (∀ q, r.pM2 = some q → 0 ≤ q) ∧
    (∀ q, r.pM3 = some q → 0 ≤ q) := by
  obtain ⟨-, hx⟩ := init_ok d r h
  obtain ⟨a, b, c, e, f, g2, ha, hb, hc, he, hf, hg, hr⟩ := extract_ok d r hx
  subst hr
  refine ⟨getG_nonneg d, ?_, ?_, ?_, ?_, ?_, ?_, ?_, ?_, ?_, ?_, ?_, ?_, ?_, ?_, ?_⟩
  · intro q hq
    injection hq with hq
    subst hq
    exact getField_nonneg _ _ _ _ ha
  · intro q hq
    injection hq with hq
    subst hq
    exact getField_nonneg _ _ _ _ hc
  · intro q hq
    injection hq with hq
    subst hq
    exact getField_nonneg _ _ _ _ hb
  · intro q hq
    injection hq with hq
    subst hq
    exact getField_nonneg _ _ _ _ he
  · intro q hq
    injection hq with hq
    subst hq
    exact getField_nonneg _ _ _ _ hf
  · intro q hq
    injection hq with hq
    subst hq
    exact getField_nonneg _ _ _ _ hg
  · exact fun q hq => getField_nonneg _ _ _ _ hq
  · exact fun q hq => getField_nonneg _ _ _ _ hq
  · exact fun q hq => getField_nonneg _ _ _ _ hq
  · exact fun q hq => getField_nonneg _ _ _ _ hq
  · exact fun q hq => getField_nonneg _ _ _ _ hq
  · exact fun q hq => getField_nonneg _ _ _ _ hq
  · exact fun q hq => getField_nonneg _ _ _ _ hq
  · exact fun q hq => getField_nonneg _ _ _ _ hq
  · exact fun q hq => getField_nonneg _ _ _ _ hq

/-- Witness for C9 at `fullFrame`. -/
theorem C9_witness : 0 ≤ fullRec.g :=
  (C9_thm fullFrame fullRec (by rfl)).1

/-- Claim C10: the whole gas OBIS-code prefix of the `G` pattern is
optional — the frame `gFrame`, accepted by validation, contains the bare
line `(123456.78)` (six digits, dot, two digits in parentheses, no
`0-1:24.2.1` code, no unit) and its parse assigns 123456.78 to `G`. -/
theorem C10_thm :
    validate gFrame = Except.ok () ∧
    (P1Packet.init gFrame).toOption.map TelegramRecord.g = some ((123456 : ℚ) + 78 / 100) :=
  ⟨by rfl, by rfl⟩
